import Mathlib

/-!
Shallow embedding of the `nanokvm` Home Assistant custom integration
(`custom_components/nanokvm/config_flow.py` and
`custom_components/nanokvm/select.py`).

Python strings are modelled as `List Char`; `str.startswith` / `str.endswith`
become `List.isPrefixOf` / `List.isSuffixOf`, and f-string concatenation
becomes list append.  Python dicts with the fixed key set
`{host, username, password}` are modelled as a record of `Option` fields, with
`dict | dict` union as right-biased field union.  The external NanoKVM client
is modelled as an oracle (`Device`) saying, for each normalized host and
credential pair, whether `authenticate` / `get_info` succeed or which
exception class they raise.  Raising an exception becomes returning an
`Except` / `Option` error value; a config-flow step returns a `StepResult`
(the `FlowResult` it produces) plus the updated `self.data` attribute.  The
select entity's write path is modelled as the trace of client calls it makes.
-/

namespace NanoKVM

/-- Python strings, modelled as lists of characters. -/
abbrev Str := List Char

/-- Python `s.startswith(pre)`. -/
def pyStartsWith (s pre : Str) : Bool := pre.isPrefixOf s

/-- Python `s.endswith(suf)`. -/
def pyEndsWith (s suf : Str) : Bool := suf.isSuffixOf s

/--
`normalize_host` from `config_flow.py` (lines 26-35):

    if not host.startswith(("http://", "https://")):
        host = f"http://{host}"
    if not host.endswith("/api/"):
        host = f"{host}api/" if host.endswith("/") else f"{host}/api/"
    return host
-/
def normalize_host (host : Str) : Str :=
  let host1 :=
    if !(pyStartsWith host "http://".data || pyStartsWith host "https://".data) then
      "http://".data ++ host
    else host
  if !(pyEndsWith host1 "/api/".data) then
    if pyEndsWith host1 "/".data then host1 ++ "api/".data else host1 ++ "/api/".data
  else host1

/--
`normalize_mdns` from `config_flow.py` (lines 37-42):

    if not mdns.endswith("."):
        mdns = f"{mdns}."
    return mdns
-/
def normalize_mdns (mdns : Str) : Str :=
  if !(pyEndsWith mdns ".".data) then mdns ++ ".".data else mdns

/-- Modelled from the spec: `DEFAULT_USERNAME` is imported from the
integration's `const.py`, which is not among the sources.  Its concrete value
is irrelevant to every claim; the NanoKVM factory default is `admin`. -/
def DEFAULT_USERNAME : Str := "admin".data

/-- Modelled from the spec: `DEFAULT_PASSWORD` is imported from the
integration's `const.py`, which is not among the sources.  Its concrete value
is irrelevant to every claim; the NanoKVM factory default is `admin`. -/
def DEFAULT_PASSWORD : Str := "admin".data

/-- The exception classes a NanoKVM client call can raise, as distinguished by
the `except` clauses of `config_flow.py`: `NanoKVMAuthenticationFailure`,
`aiohttp.ClientError`, `NanoKVMError`, or any other exception. -/
inductive ClientExc where
  | authFailure
  | clientError
  | nanoError
  | otherExc
deriving DecidableEq, Repr

/-- The part of the client's `get_info` payload the flow uses. -/
structure DeviceInfo where
  mdns : Str
deriving DecidableEq, Repr

/-- Oracle for the external NanoKVM client: for a given base URL (the
normalized host the `NanoKVMClient` is constructed with), `authenticate u p`
either succeeds (`none`) or raises an exception class, and `get_info` either
returns the device info or raises. -/
structure Device where
  authenticate : Str → Str → Str → Option ClientExc
  get_info : Str → Except ClientExc DeviceInfo

/-- A Python dict over the fixed key set `{CONF_HOST, CONF_USERNAME,
CONF_PASSWORD}`; `none` means the key is absent. -/
structure PartialData where
  host : Option Str
  username : Option Str
  password : Option Str
deriving DecidableEq, Repr

/-- Python dict union `a | b` (keys of `b` win). -/
def PartialData.union (a b : PartialData) : PartialData where
  host := b.host.or a.host
  username := b.username.or a.username
  password := b.password.or a.password

/-- The dict literal `{CONF_USERNAME: DEFAULT_USERNAME,
CONF_PASSWORD: DEFAULT_PASSWORD}` merged over in `async_step_user`. -/
def defaultCreds : PartialData := ⟨none, some DEFAULT_USERNAME, some DEFAULT_PASSWORD⟩

/-- `{CONF_USERNAME: DEFAULT_USERNAME, CONF_PASSWORD: DEFAULT_PASSWORD} | user_input`
(lines 84-87 of `config_flow.py`). -/
def user_step_data (user_input : PartialData) : PartialData :=
  defaultCreds.union user_input

/-- How a call to `validate_input` terminates, seen from its caller:
`InvalidAuth` raised, `CannotConnect` raised, or any other exception escaping
(including a `KeyError` on a missing dict key); success carries the returned
string separately. -/
inductive VError where
  | invalidAuth
  | cannotConnect
  | raisedOther
deriving DecidableEq, Repr

/-- The `except` clauses of `validate_input` (lines 54-57): a
`NanoKVMAuthenticationFailure` is re-raised as `InvalidAuth`, an
`aiohttp.ClientError` or `NanoKVMError` as `CannotConnect`; anything else
escapes unchanged. -/
def mapExc : ClientExc → VError
  | .authFailure => .invalidAuth
  | .clientError => .cannotConnect
  | .nanoError => .cannotConnect
  | .otherExc => .raisedOther

/--
`validate_input` from `config_flow.py` (lines 44-59): build a client on
`normalize_host(data[CONF_HOST])`, `authenticate(data[CONF_USERNAME],
data[CONF_PASSWORD])`, then `get_info()`, mapping exceptions through the
`except` clauses; on success return `normalize_mdns(device_info.mdns)`.
A missing dict key raises a `KeyError`, which none of the `except` clauses
catches, so it surfaces like any other unexpected exception
(`VError.raisedOther`).
-/
def validate_input (dev : Device) (data : PartialData) : Except VError Str :=
  match data.host, data.username, data.password with
  | some h, some u, some p =>
    match dev.authenticate (normalize_host h) u p with
    | some e => .error (mapExc e)
    | none =>
      match dev.get_info (normalize_host h) with
      | .error e => .error (mapExc e)
      | .ok info => .ok (normalize_mdns info.mdns)
  | _, _, _ => .error .raisedOther

/-- The `FlowResult` a step produces: a form (step id plus the optional
`errors["base"]` entry), a created config entry (unique id, title, data), or
an abort from `_abort_if_unique_id_configured`. -/
inductive StepResult where
  | showForm (step : Str) (baseError : Option Str)
  | createEntry (uid : Str) (title : Str) (data : PartialData)
  | abort
deriving DecidableEq, Repr

/-- `ConfigFlow.add_device` (lines 67-75): set the unique id to `mdns`, abort
if an entry with that unique id is already configured, otherwise create the
entry titled `NanoKVM ({mdns})`.  `configured` is the set of unique ids of
existing config entries. -/
def add_device (configured : List Str) (mdns : Str) (data : PartialData) : StepResult :=
  if mdns ∈ configured then .abort
  else .createEntry mdns ("NanoKVM (".data ++ mdns ++ ")".data) data

/--
`ConfigFlow.async_step_auth` (lines 141-173).  The state threaded through is
`self.data`; the step returns the `FlowResult` and the new `self.data`.
`user_input` carries the two schema-required fields `CONF_USERNAME` and
`CONF_PASSWORD`.
-/
def async_step_auth (dev : Device) (configured : List Str) (sdata : PartialData)
    (user_input : Option (Str × Str)) : StepResult × PartialData :=
  match user_input with
  | none => (.showForm "auth".data none, sdata)
  | some (u, p) =>
    let data := sdata.union ⟨none, some u, some p⟩
    match validate_input dev data with
    | .error .cannotConnect => (.showForm "auth".data (some "cannot_connect".data), sdata)
    | .error .invalidAuth => (.showForm "auth".data (some "invalid_auth".data), sdata)
    | .error .raisedOther => (.showForm "auth".data (some "unknown".data), sdata)
    | .ok mdns => (add_device configured mdns data, sdata)

/--
`ConfigFlow.async_step_confirm` (lines 113-139).  The confirm form carries no
schema, so its submitted `user_input` holds no data (`Option Unit`);
validation runs on `self.data`.
-/
def async_step_confirm (dev : Device) (configured : List Str) (sdata : PartialData)
    (user_input : Option Unit) : StepResult × PartialData :=
  match user_input with
  | none => (.showForm "confirm".data none, sdata)
  | some _ =>
    match validate_input dev sdata with
    | .error .cannotConnect => (.showForm "confirm".data (some "cannot_connect".data), sdata)
    | .error .invalidAuth => async_step_auth dev configured sdata none
    | .error .raisedOther => (.showForm "confirm".data (some "unknown".data), sdata)
    | .ok mdns => (add_device configured mdns sdata, sdata)

/--
`ConfigFlow.async_step_user` (lines 77-111): merge the default credentials
under `user_input`, validate; on `CannotConnect` re-show the user form with
`errors["base"] = "cannot_connect"`, on `InvalidAuth` store the raw
`user_input` in `self.data` and continue into the auth step, on another
exception re-show the user form with `errors["base"] = "unknown"`, on success
store the merged data in `self.data` and continue into the confirm step.
-/
def async_step_user (dev : Device) (configured : List Str) (sdata : PartialData)
    (user_input : Option PartialData) : StepResult × PartialData :=
  match user_input with
  | none => (.showForm "user".data none, sdata)
  | some inp =>
    let data := user_step_data inp
    match validate_input dev data with
    | .error .cannotConnect => (.showForm "user".data (some "cannot_connect".data), sdata)
    | .error .invalidAuth => async_step_auth dev configured inp none
    | .error .raisedOther => (.showForm "user".data (some "unknown".data), sdata)
    | .ok _ => async_step_confirm dev configured data none

/-- How the zeroconf step terminates: with a `FlowResult`, with Python's bare
`return` (the step returns `None`, line 203), or with an exception escaping
the step (a probe exception no `except` clause catches). -/
inductive ZStepResult where
  | res (r : StepResult)
  | noneReturn
  | raised (e : ClientExc)
deriving DecidableEq, Repr

/-- The probe of `async_step_zeroconf` (lines 186-188): `authenticate` with
the default credentials, then `get_info`; the first exception raised, if
any. -/
def zeroconf_probe (dev : Device) (hostname : Str) : Option ClientExc :=
  match dev.authenticate (normalize_host hostname) DEFAULT_USERNAME DEFAULT_PASSWORD with
  | some e => some e
  | none =>
    match dev.get_info (normalize_host hostname) with
    | .error e => some e
    | .ok _ => none

/--
`ConfigFlow.async_step_zeroconf` (lines 175-210): set the unique id to
`normalize_mdns(hostname)` and abort if already configured; otherwise probe
with default credentials.  An `aiohttp.ClientError` or `NanoKVMError` makes
the step return `None`; a `NanoKVMAuthenticationFailure` is swallowed; any
other exception escapes.  When the flow goes on, `self.data` is set to
`{CONF_HOST: hostname}` and the user step is invoked with it as input.
-/
def async_step_zeroconf (dev : Device) (configured : List Str) (sdata : PartialData)
    (hostname : Str) : ZStepResult × PartialData :=
  if normalize_mdns hostname ∈ configured then (.res .abort, sdata)
  else
    match zeroconf_probe dev hostname with
    | some .clientError => (.noneReturn, sdata)
    | some .nanoError => (.noneReturn, sdata)
    | some .otherExc => (.raised .otherExc, sdata)
    | some .authFailure | none =>
      let data : PartialData := ⟨some hostname, none, none⟩
      let r := async_step_user dev configured data (some data)
      (.res r.1, r.2)

/-!
## The select entity (`select.py`)
-/

/-- `MouseJigglerMode` from the client library's `nanokvm.models`. -/
inductive MouseJigglerMode where
  | RELATIVE
  | ABSOLUTE
deriving DecidableEq, Repr

/-- The mouse-jiggler state the coordinator polls from the device. -/
structure MouseJigglerState where
  enabled : Bool
  mode : MouseJigglerMode
deriving DecidableEq, Repr

/-- The part of `NanoKVMDataUpdateCoordinator` the select entity reads:
`coordinator.mouse_jiggler_state`, which is `None` until polled. -/
structure Coordinator where
  mouse_jiggler_state : Option MouseJigglerState
deriving DecidableEq, Repr

/-- `value_fn` of the `mouse_jiggler_mode` entry of `SELECTS`
(`select.py` lines 42-46). -/
def value_fn (c : Coordinator) : Str :=
  match c.mouse_jiggler_state with
  | none => "Disable".data
  | some s =>
    if !s.enabled then "Disable".data
    else if s.mode = MouseJigglerMode.RELATIVE then "Relative Mode".data
    else "Absolute Mode".data

/-- `available_fn` of the `mouse_jiggler_mode` entry of `SELECTS`
(`select.py` line 51). -/
def available_fn (c : Coordinator) : Bool :=
  c.mouse_jiggler_state.isSome

/-- The `(enabled, mode)` arguments `select_option_fn` passes to
`client.set_mouse_jiggler_state` (`select.py` lines 47-50):
`option != "Disable"` and `RELATIVE` exactly for `"Relative Mode"`. -/
def select_option_args (option : Str) : Bool × MouseJigglerMode :=
  (option ≠ "Disable".data,
   if option = "Relative Mode".data then MouseJigglerMode.RELATIVE
   else MouseJigglerMode.ABSOLUTE)

/-- The externally visible calls `NanoKVMSelect.async_select_option` makes. -/
inductive ClientCall where
  | set_mouse_jiggler_state (enabled : Bool) (mode : MouseJigglerMode)
  | request_refresh
deriving DecidableEq, Repr

/-- `NanoKVMSelect.async_select_option` (`select.py` lines 97-100), as the
trace of client/coordinator calls it awaits in order: one
`set_mouse_jiggler_state` write through `select_option_fn`, then one
`async_request_refresh`. -/
def async_select_option (option : Str) : List ClientCall :=
  [ClientCall.set_mouse_jiggler_state (select_option_args option).1 (select_option_args option).2,
   ClientCall.request_refresh]

/-!
## Concrete fixtures used by the witness theorems
-/

/-- A device on which both client calls succeed and which advertises the mDNS
name `nanokvm.local`. -/
def devOk : Device where
  authenticate := fun _ _ _ => none
  get_info := fun _ => .ok ⟨"nanokvm.local".data⟩

/-- A device whose `authenticate` raises `aiohttp.ClientError`. -/
def devConnFail : Device where
  authenticate := fun _ _ _ => some .clientError
  get_info := fun _ => .error .clientError

/-- A device whose `authenticate` raises `NanoKVMAuthenticationFailure`. -/
def devAuthFail : Device where
  authenticate := fun _ _ _ => some .authFailure
  get_info := fun _ => .error .authFailure

/-- A device whose `authenticate` raises an unexpected exception. -/
def devOtherFail : Device where
  authenticate := fun _ _ _ => some .otherExc
  get_info := fun _ => .error .otherExc

/-- A sample user input holding only a host, as the zeroconf hand-off does. -/
def inpHostOnly : PartialData := ⟨some "10.0.0.5".data, none, none⟩

/-!
## Theorems

Helper lemmas about the Python string predicates, then one theorem (plus, when
it carries hypotheses, one witness) per claim.
-/

theorem pyEndsWith_append (s suf : Str) : pyEndsWith (s ++ suf) suf = true := by
  simp [pyEndsWith, List.isSuffixOf_iff_suffix]

theorem pyStartsWith_append_right (s pre t : Str) (h : pyStartsWith s pre = true) :
    pyStartsWith (s ++ t) pre = true := by
  simp only [pyStartsWith, List.isPrefixOf_iff_prefix] at h ⊢
  exact h.trans (List.prefix_append s t)

theorem pyStartsWith_self_append (pre t : Str) : pyStartsWith (pre ++ t) pre = true := by
  simp [pyStartsWith, List.isPrefixOf_iff_prefix]

theorem pyEndsWith_elim {s suf : Str} (h : pyEndsWith s suf = true) :
    ∃ t, s = t ++ suf := by
  simp only [pyEndsWith, List.isSuffixOf_iff_suffix] at h
  obtain ⟨t, ht⟩ := h
  exact ⟨t, ht.symm⟩

/-- The result of `normalize_host` always carries a scheme. -/
theorem normalize_host_scheme (h : Str) :
    pyStartsWith (normalize_host h) "http://".data = true ∨
      pyStartsWith (normalize_host h) "https://".data = true := by
  unfold normalize_host
  set h1 := if !(pyStartsWith h "http://".data || pyStartsWith h "https://".data) then
      "http://".data ++ h
    else h with hh1
  have base : pyStartsWith h1 "http://".data = true ∨
      pyStartsWith h1 "https://".data = true := by
    rw [hh1]
    by_cases hc : (pyStartsWith h "http://".data || pyStartsWith h "https://".data) = true
    · rw [if_neg (by simp [hc])]
      rcases Bool.or_eq_true_iff.mp hc with h1 | h2
      · exact Or.inl h1
      · exact Or.inr h2
    · rw [if_pos (by simp [Bool.not_eq_true] at hc ⊢; exact hc)]
      exact Or.inl (pyStartsWith_self_append _ _)
  by_cases he : pyEndsWith h1 "/api/".data = true
  · simpa [he] using base
  · rw [if_pos (by simp [Bool.not_eq_true] at he ⊢; exact he)]
    by_cases hs : pyEndsWith h1 "/".data = true
    · rw [if_pos hs]
      rcases base with hb | hb
      · exact Or.inl (pyStartsWith_append_right _ _ _ hb)
      · exact Or.inr (pyStartsWith_append_right _ _ _ hb)
    · rw [if_neg hs]
      rcases base with hb | hb
      · exact Or.inl (pyStartsWith_append_right _ _ _ hb)
      · exact Or.inr (pyStartsWith_append_right _ _ _ hb)

/-- The result of `normalize_host` always ends with `/api/`. -/
theorem normalize_host_api (h : Str) :
    pyEndsWith (normalize_host h) "/api/".data = true := by
  unfold normalize_host
  set h1 := if !(pyStartsWith h "http://".data || pyStartsWith h "https://".data) then
      "http://".data ++ h
    else h with hh1
  by_cases he : pyEndsWith h1 "/api/".data = true
  · simp [he]
  · rw [if_pos (by simp [Bool.not_eq_true] at he ⊢; exact he)]
    by_cases hs : pyEndsWith h1 "/".data = true
    · rw [if_pos hs]
      obtain ⟨t, ht⟩ := pyEndsWith_elim hs
      have : h1 ++ "api/".data = t ++ "/api/".data := by
        rw [ht]; simp
      rw [this]
      exact pyEndsWith_append _ _
    · rw [if_neg hs]
      exact pyEndsWith_append _ _

/-- On an input that already has a scheme and already ends with `/api/`,
`normalize_host` is the identity. -/
theorem normalize_host_fixed (h : Str)
    (hs : pyStartsWith h "http://".data = true ∨ pyStartsWith h "https://".data = true)
    (he : pyEndsWith h "/api/".data = true) :
    normalize_host h = h := by
  unfold normalize_host
  have hc : (pyStartsWith h "http://".data || pyStartsWith h "https://".data) = true := by
    rcases hs with h1 | h1 <;> simp [h1]
  simp [hc, he]

/-- C3: host normalization is idempotent: for every string `h`,
`normalize_host (normalize_host h) = normalize_host h`. -/
theorem C3_normalize_host_idempotent (h : Str) :
    normalize_host (normalize_host h) = normalize_host h :=
  normalize_host_fixed _ (normalize_host_scheme h) (normalize_host_api h)

/-- C4: for every string `h`, `normalize_host h` ends with `"/api/"` and
starts with `"http://"` or `"https://"`. -/
theorem C4_normalize_host_shape (h : Str) :
    pyEndsWith (normalize_host h) "/api/".data = true ∧
      (pyStartsWith (normalize_host h) "http://".data = true ∨
        pyStartsWith (normalize_host h) "https://".data = true) :=
  ⟨normalize_host_api h, normalize_host_scheme h⟩

/-- C8: for every string `s`, `normalize_mdns s` ends with `"."`. -/
theorem C8_normalize_mdns_dot (s : Str) :
    pyEndsWith (normalize_mdns s) ".".data = true := by
  unfold normalize_mdns
  by_cases he : pyEndsWith s ".".data = true
  · simp [he]
  · rw [if_pos (by simp [Bool.not_eq_true] at he ⊢; exact he)]
    exact pyEndsWith_append _ _

/-- C1: for the user step with non-empty input: if `validate_input` succeeds
on the merged default credentials, the step returns the result of the confirm
step; if it raises `InvalidAuth`, the step returns the result of the auth
step; if it raises `CannotConnect`, the step returns the user form again with
`errors["base"] = "cannot_connect"` and does not advance (`self.data` is left
untouched). -/
theorem C1_user_step_dispatch (dev : Device) (configured : List Str)
    (sdata inp : PartialData) :
    (∀ m, validate_input dev (user_step_data inp) = .ok m →
      async_step_user dev configured sdata (some inp) =
        async_step_confirm dev configured (user_step_data inp) none) ∧
    (validate_input dev (user_step_data inp) = .error .invalidAuth →
      async_step_user dev configured sdata (some inp) =
        async_step_auth dev configured inp none) ∧
    (validate_input dev (user_step_data inp) = .error .cannotConnect →
      async_step_user dev configured sdata (some inp) =
        (.showForm "user".data (some "cannot_connect".data), sdata)) := by
  refine ⟨?_, ?_, ?_⟩
  · intro m hm
    simp [async_step_user, hm]
  · intro hm
    simp [async_step_user, hm]
  · intro hm
    simp [async_step_user, hm]

/-- Witness for C1: on a device accepting the default credentials, submitting
a host advances the flow to the confirm step. -/
theorem C1_user_step_dispatch_witness :
    async_step_user devOk [] inpHostOnly (some inpHostOnly) =
      async_step_confirm devOk [] (user_step_data inpHostOnly) none :=
  (C1_user_step_dispatch devOk [] inpHostOnly inpHostOnly).1
    (normalize_mdns "nanokvm.local".data) rfl

/-- C2: `validate_input` raises `InvalidAuth` iff `authenticate` or
`get_info` raises `NanoKVMAuthenticationFailure`, raises `CannotConnect` iff
one of them raises `aiohttp.ClientError` or `NanoKVMError`, and on success
returns the trailing-dot-normalized mDNS name of the device, which the
confirm and auth steps then use as the unique id of the created config entry;
any other exception propagates and is mapped to the `"unknown"` form error by
every calling step. -/
theorem C2_validate_input_contract (dev : Device) (h u p : Str)
    (configured : List Str) (sdata : PartialData) :
    (validate_input dev ⟨some h, some u, some p⟩ = .error .invalidAuth ↔
      dev.authenticate (normalize_host h) u p = some .authFailure ∨
        (dev.authenticate (normalize_host h) u p = none ∧
          dev.get_info (normalize_host h) = .error .authFailure)) ∧
    (validate_input dev ⟨some h, some u, some p⟩ = .error .cannotConnect ↔
      (dev.authenticate (normalize_host h) u p = some .clientError ∨
        dev.authenticate (normalize_host h) u p = some .nanoError) ∨
        (dev.authenticate (normalize_host h) u p = none ∧
          (dev.get_info (normalize_host h) = .error .clientError ∨
            dev.get_info (normalize_host h) = .error .nanoError))) ∧
    (∀ m, validate_input dev ⟨some h, some u, some p⟩ = .ok m ↔
      ∃ info, dev.authenticate (normalize_host h) u p = none ∧
        dev.get_info (normalize_host h) = .ok info ∧ m = normalize_mdns info.mdns) ∧
    (validate_input dev ⟨some h, some u, some p⟩ = .error .raisedOther →
      async_step_user dev configured sdata (some ⟨some h, some u, some p⟩) =
          (.showForm "user".data (some "unknown".data), sdata) ∧
        async_step_confirm dev configured ⟨some h, some u, some p⟩ (some ()) =
          (.showForm "confirm".data (some "unknown".data), ⟨some h, some u, some p⟩) ∧
        async_step_auth dev configured ⟨some h, none, none⟩ (some (u, p)) =
          (.showForm "auth".data (some "unknown".data), ⟨some h, none, none⟩)) ∧
    (∀ m, validate_input dev ⟨some h, some u, some p⟩ = .ok m → m ∉ configured →
      async_step_confirm dev configured ⟨some h, some u, some p⟩ (some ()) =
          (.createEntry m ("NanoKVM (".data ++ m ++ ")".data)
            ⟨some h, some u, some p⟩, ⟨some h, some u, some p⟩) ∧
        async_step_auth dev configured ⟨some h, none, none⟩ (some (u, p)) =
          (.createEntry m ("NanoKVM (".data ++ m ++ ")".data)
            ⟨some h, some u, some p⟩, ⟨some h, none, none⟩)) := by
  have hunion : (⟨some h, none, none⟩ : PartialData).union ⟨none, some u, some p⟩ =
      ⟨some h, some u, some p⟩ := rfl
  have hud : user_step_data ⟨some h, some u, some p⟩ = ⟨some h, some u, some p⟩ := rfl
  refine ⟨?_, ?_, ?_, ?_, ?_⟩
  · cases hna : dev.authenticate (normalize_host h) u p with
    | some e => cases e <;> simp [validate_input, mapExc, hna]
    | none =>
      cases hgi : dev.get_info (normalize_host h) with
      | error e => cases e <;> simp [validate_input, mapExc, hna, hgi]
      | ok info => simp [validate_input, mapExc, hna, hgi]
  · cases hna : dev.authenticate (normalize_host h) u p with
    | some e => cases e <;> simp [validate_input, mapExc, hna]
    | none =>
      cases hgi : dev.get_info (normalize_host h) with
      | error e => cases e <;> simp [validate_input, mapExc, hna, hgi]
      | ok info => simp [validate_input, mapExc, hna, hgi]
  · intro m
    cases hna : dev.authenticate (normalize_host h) u p with
    | some e => cases e <;> simp [validate_input, mapExc, hna]
    | none =>
      cases hgi : dev.get_info (normalize_host h) with
      | error e => cases e <;> simp [validate_input, mapExc, hna, hgi]
      | ok info =>
        constructor
        · intro hm
          refine ⟨info, rfl, rfl, ?_⟩
          have hv : validate_input dev ⟨some h, some u, some p⟩ =
              .ok (normalize_mdns info.mdns) := by
            simp [validate_input, hna, hgi]
          rw [hv] at hm
          exact (Except.ok.inj hm).symm
        · rintro ⟨info2, -, hok, hm⟩
          obtain rfl := Except.ok.inj hok
          subst hm
          simp [validate_input, hna, hgi]
  · intro hm
    refine ⟨?_, ?_, ?_⟩
    · simp [async_step_user, hud, hm]
    · simp [async_step_confirm, hm]
    · simp [async_step_auth, hunion, hm]
  · intro m hm hmem
    refine ⟨?_, ?_⟩
    · simp [async_step_confirm, hm, add_device, hmem]
    · simp [async_step_auth, hunion, hm, add_device, hmem]

/-- Witness for C2: on a device accepting the credentials and advertising
`nanokvm.local`, submitting the confirm form creates the entry whose unique
id is the trailing-dot mDNS name. -/
theorem C2_validate_input_contract_witness :
    async_step_confirm devOk []
        ⟨some "10.0.0.5".data, some DEFAULT_USERNAME, some DEFAULT_PASSWORD⟩ (some ()) =
      (.createEntry (normalize_mdns "nanokvm.local".data)
          ("NanoKVM (".data ++ normalize_mdns "nanokvm.local".data ++ ")".data)
          ⟨some "10.0.0.5".data, some DEFAULT_USERNAME, some DEFAULT_PASSWORD⟩,
        ⟨some "10.0.0.5".data, some DEFAULT_USERNAME, some DEFAULT_PASSWORD⟩) :=
  ((C2_validate_input_contract devOk "10.0.0.5".data DEFAULT_USERNAME DEFAULT_PASSWORD
      [] inpHostOnly).2.2.2.2 (normalize_mdns "nanokvm.local".data) rfl
    (List.not_mem_nil _)).1

/-- C5: if a config entry with unique id `normalize_mdns hostname` is already
configured, the zeroconf step aborts; the result is the same for every device
oracle, so no network probe can influence it, and no entry is created. -/
theorem C5_zeroconf_configured_aborts (dev : Device) (configured : List Str)
    (sdata : PartialData) (hostname : Str)
    (hmem : normalize_mdns hostname ∈ configured) :
    async_step_zeroconf dev configured sdata hostname = (.res .abort, sdata) := by
  simp [async_step_zeroconf, hmem]

/-- Witness for C5: a discovery of `nanokvm.local` aborts when
`nanokvm.local.` is already configured, even on a device that would accept
the default credentials. -/
theorem C5_zeroconf_configured_aborts_witness :
    normalize_mdns "nanokvm.local".data ∈ [normalize_mdns "nanokvm.local".data] ∧
      async_step_zeroconf devOk [normalize_mdns "nanokvm.local".data] inpHostOnly
        "nanokvm.local".data = (.res .abort, inpHostOnly) :=
  ⟨List.mem_singleton.mpr rfl,
    C5_zeroconf_configured_aborts devOk [normalize_mdns "nanokvm.local".data]
      inpHostOnly "nanokvm.local".data (List.mem_singleton.mpr rfl)⟩

/-- C6: when the discovered device is not configured yet, a probe failing
with `aiohttp.ClientError` or `NanoKVMError` makes the zeroconf step return
`None` (no entry, no form); a probe failing with
`NanoKVMAuthenticationFailure` makes the flow continue into the user step
with the discovered hostname as the host, which then shows the auth
(credentials) form. -/
theorem C6_zeroconf_probe_dispatch (dev : Device) (configured : List Str)
    (sdata : PartialData) (hostname : Str)
    (hnc : normalize_mdns hostname ∉ configured) :
    (zeroconf_probe dev hostname = some .clientError ∨
        zeroconf_probe dev hostname = some .nanoError →
      async_step_zeroconf dev configured sdata hostname = (.noneReturn, sdata)) ∧
    (zeroconf_probe dev hostname = some .authFailure →
      async_step_zeroconf dev configured sdata hostname =
          (.res (async_step_user dev configured ⟨some hostname, none, none⟩
              (some ⟨some hostname, none, none⟩)).1,
            (async_step_user dev configured ⟨some hostname, none, none⟩
              (some ⟨some hostname, none, none⟩)).2) ∧
        (async_step_zeroconf dev configured sdata hostname).1 =
          .res (.showForm "auth".data none)) := by
  constructor
  · rintro (hp | hp) <;> simp [async_step_zeroconf, hnc, hp]
  · intro hp
    have hstep : async_step_zeroconf dev configured sdata hostname =
        (.res (async_step_user dev configured ⟨some hostname, none, none⟩
            (some ⟨some hostname, none, none⟩)).1,
          (async_step_user dev configured ⟨some hostname, none, none⟩
            (some ⟨some hostname, none, none⟩)).2) := by
      simp [async_step_zeroconf, hnc, hp]
    refine ⟨hstep, ?_⟩
    have hval : validate_input dev
        ⟨some hostname, some DEFAULT_USERNAME, some DEFAULT_PASSWORD⟩ =
        .error .invalidAuth := by
      unfold zeroconf_probe at hp
      cases hna : dev.authenticate (normalize_host hostname)
          DEFAULT_USERNAME DEFAULT_PASSWORD with
      | some e =>
        rw [hna] at hp
        have he : e = .authFailure := by
          simpa using hp
        simp [validate_input, hna, he, mapExc]
      | none =>
        rw [hna] at hp
        cases hgi : dev.get_info (normalize_host hostname) with
        | error e =>
          rw [hgi] at hp
          have he : e = .authFailure := by
            simpa using hp
          simp [validate_input, hna, hgi, he, mapExc]
        | ok info =>
          rw [hgi] at hp
          simp at hp
    have huser : async_step_user dev configured ⟨some hostname, none, none⟩
        (some ⟨some hostname, none, none⟩) =
        (.showForm "auth".data none, ⟨some hostname, none, none⟩) := by
      have hud : user_step_data ⟨some hostname, none, none⟩ =
          ⟨some hostname, some DEFAULT_USERNAME, some DEFAULT_PASSWORD⟩ := rfl
      simp [async_step_user, hud, hval, async_step_auth]
    rw [hstep, huser]

/-- Witness for C6: a device whose probe fails with `aiohttp.ClientError`
makes the zeroconf step return `None`. -/
theorem C6_zeroconf_probe_dispatch_witness :
    async_step_zeroconf devConnFail [] inpHostOnly "nanokvm.local".data =
      (.noneReturn, inpHostOnly) :=
  (C6_zeroconf_probe_dispatch devConnFail [] inpHostOnly "nanokvm.local".data
    (List.not_mem_nil _)).1 (Or.inl rfl)

/-- C7: selecting an option sends exactly one `set_mouse_jiggler_state` write
(`Disable` sends `enabled = false`, `Relative Mode` sends `true` with
`RELATIVE`, `Absolute Mode` sends `true` with `ABSOLUTE`) followed by exactly
one refresh request; the displayed option is `Disable` when the jiggler state
is absent or not enabled, `Relative Mode` when enabled with `RELATIVE`, and
`Absolute Mode` otherwise. -/
theorem C7_select_mapping :
    (async_select_option "Disable".data =
      [.set_mouse_jiggler_state false .ABSOLUTE, .request_refresh]) ∧
    (async_select_option "Relative Mode".data =
      [.set_mouse_jiggler_state true .RELATIVE, .request_refresh]) ∧
    (async_select_option "Absolute Mode".data =
      [.set_mouse_jiggler_state true .ABSOLUTE, .request_refresh]) ∧
    (value_fn ⟨none⟩ = "Disable".data) ∧
    (∀ s : MouseJigglerState, s.enabled = false →
      value_fn ⟨some s⟩ = "Disable".data) ∧
    (∀ s : MouseJigglerState, s.enabled = true → s.mode = .RELATIVE →
      value_fn ⟨some s⟩ = "Relative Mode".data) ∧
    (∀ s : MouseJigglerState, s.enabled = true → s.mode ≠ .RELATIVE →
      value_fn ⟨some s⟩ = "Absolute Mode".data) := by
  refine ⟨by decide, by decide, by decide, by decide, ?_, ?_, ?_⟩
  · intro s hs
    simp [value_fn, hs]
  · intro s hs hmode
    simp [value_fn, hs, hmode]
  · intro s hs hmode
    simp [value_fn, hs, hmode]

/-- Witness for C7: a disabled jiggler state displays `Disable`. -/
theorem C7_select_mapping_witness :
    value_fn ⟨some ⟨false, .RELATIVE⟩⟩ = "Disable".data :=
  C7_select_mapping.2.2.2.2.1 ⟨false, .RELATIVE⟩ rfl

/-- C9: for each of the three options, if the device state becomes exactly
the `(enabled, mode)` pair sent by `select_option_fn`, then `value_fn` on
that state yields the same option back. -/
theorem C9_select_roundtrip :
    (value_fn ⟨some ⟨(select_option_args "Disable".data).1,
        (select_option_args "Disable".data).2⟩⟩ = "Disable".data) ∧
    (value_fn ⟨some ⟨(select_option_args "Relative Mode".data).1,
        (select_option_args "Relative Mode".data).2⟩⟩ = "Relative Mode".data) ∧
    (value_fn ⟨some ⟨(select_option_args "Absolute Mode".data).1,
        (select_option_args "Absolute Mode".data).2⟩⟩ = "Absolute Mode".data) := by
  refine ⟨by decide, by decide, by decide⟩

/-- C10: the data the user step passes to `validate_input` is the default
credentials overridden by the keys present in `user_input`: an explicitly
supplied username or password wins, the defaults are used exactly when the
key is absent, and the host is taken from `user_input` alone; in particular
the zeroconf hand-off, which supplies only the host, validates with both
defaults. -/
theorem C10_credential_precedence (inp : PartialData) :
    ((user_step_data inp).host = inp.host) ∧
    (∀ u, inp.username = some u → (user_step_data inp).username = some u) ∧
    (inp.username = none → (user_step_data inp).username = some DEFAULT_USERNAME) ∧
    (∀ p, inp.password = some p → (user_step_data inp).password = some p) ∧
    (inp.password = none → (user_step_data inp).password = some DEFAULT_PASSWORD) ∧
    (∀ hostname : Str, user_step_data ⟨some hostname, none, none⟩ =
      ⟨some hostname, some DEFAULT_USERNAME, some DEFAULT_PASSWORD⟩) := by
  obtain ⟨h, u, p⟩ := inp
  refine ⟨?_, ?_, ?_, ?_, ?_, ?_⟩
  · cases h <;> simp [user_step_data, PartialData.union, defaultCreds, Option.or]
  · intro u0 hu
    subst hu
    simp [user_step_data, PartialData.union, defaultCreds, Option.or]
  · intro hu
    subst hu
    simp [user_step_data, PartialData.union, defaultCreds, Option.or]
  · intro p0 hp
    subst hp
    simp [user_step_data, PartialData.union, defaultCreds, Option.or]
  · intro hp
    subst hp
    simp [user_step_data, PartialData.union, defaultCreds, Option.or]
  · intro hostname
    rfl

/-- Witness for C10: an input holding only a host validates with the default
username. -/
theorem C10_credential_precedence_witness :
    (user_step_data inpHostOnly).username = some DEFAULT_USERNAME :=
  (C10_credential_precedence inpHostOnly).2.2.1 rfl

end NanoKVM
